import Mathlib

/-!
Shallow embedding of the vicebrowser application (src/browser.py) and proofs
about the claims of its specification.

Conventions used throughout:
* Python strings are embedded as `List Char`; a Lean string literal `s` is
  turned into its character list with `s.data`.
* The SQLite-backed stores (tables `history` and `favorites`) are embedded as
  Lean lists of records; the `UNIQUE` constraint on `favorites.url` declared in
  `init_database` is embedded as the failure condition of `add_favorite`, and
  the `DEFAULT CURRENT_TIMESTAMP` column is embedded as an explicit `now`
  argument.  The auto-increment `id` column is omitted: no claim mentions it.
* Qt geometry (`QRect`, `QPoint`) is embedded with mathematical integers.
* Python `float` values are IEEE-754 binary64 doubles.  For the zoom
  arithmetic they are embedded exactly as naturals on the grid `2 ^ (-60)`
  (every double arising in the zoom computation is an integer multiple of
  `2 ^ (-60)`), with correct round-to-nearest, ties-to-even rounding.
-/

/-- Python `s.startswith(p)` on character lists: `startsWith p s` is `true`
iff `p` is an initial segment of `s`. -/
def startsWith : List Char → List Char → Bool
  | [], _ => true
  | _ :: _, [] => false
  | p :: ps, c :: cs => p == c && startsWith ps cs

/-- Python `s.endswith(p)` on character lists, via reversal. -/
def endsWith (p s : List Char) : Bool :=
  startsWith p.reverse s.reverse

/-- The scheme test shared verbatim by `ViceCityBrowser.is_url`
(src/browser.py line 1160) and the home page's JavaScript `performSearch`
(lines 793-794): the input starts with `http://`, `https://`, `file://`
or `ftp://`. -/
def hasScheme (text : List Char) : Bool :=
  startsWith "http://".data text || startsWith "https://".data text ||
    startsWith "file://".data text || startsWith "ftp://".data text

/-- Embedding of `ViceCityBrowser.is_url` (src/browser.py lines 1155-1162),
the address bar's URL-vs-search-query classifier:
space check first, then the interior-dot check, then the scheme check. -/
def is_url (text : List Char) : Bool :=
  if text.contains ' ' then false
  else if text.contains '.' && !startsWith ".".data text && !endsWith ".".data text then true
  else if hasScheme text then true
  else false

/-- Embedding of the home page's client-side classifier computed inside the
JavaScript function `performSearch` (src/browser.py lines 790-796):
`isUrl = hasScheme || (hasDot && !hasSpace)` where
`hasDot = input.includes('.') && !input.startsWith('.') && !input.endsWith('.')`. -/
def homepage_is_url (input : List Char) : Bool :=
  let hasSpace := input.contains ' '
  let hasDot := input.contains '.' && !startsWith ".".data input && !endsWith ".".data input
  hasScheme input || (hasDot && !hasSpace)

/-- Claim C2 (code_bug evidence): the address bar's classifier `is_url` and
the home page's client-side classifier `homepage_is_url` are NOT
extensionally equal: on the input `"http://a b"` the address bar classifies
a search query (the space check runs before the scheme check) while the home
page classifies a URL (its scheme check short-circuits the space check),
although the JavaScript carries the comment "matches Python is_url logic". -/
theorem address_bar_homepage_classifiers_differ :
    is_url "http://a b".data = false ∧ homepage_is_url "http://a b".data = true := by
  decide

/-- Claim C3: every input string containing a space character is classified
as a search query by the address-bar classifier `is_url`, regardless of dots
or scheme, because the space check is evaluated first. -/
theorem is_url_space_query (text : List Char) (h : text.contains ' ' = true) :
    is_url text = false := by
  unfold is_url
  rw [if_pos h]

/-- Witness for claim C3 at the concrete input `"vice city.com"`, which
contains a space as well as a dot. -/
theorem is_url_space_query_witness :
    ("vice city.com".data).contains ' ' = true ∧ is_url "vice city.com".data = false :=
  ⟨by decide, is_url_space_query "vice city.com".data (by decide)⟩

/-- Claim C4 (counterexample): the input `"https://vice city.com"` starts
with `https://`, yet `is_url` classifies it as a search query because it
contains a space — refuting the claim that every scheme-prefixed string is
classified as a URL. -/
theorem is_url_scheme_with_space_counterexample :
    hasScheme "https://vice city.com".data = true ∧
      is_url "https://vice city.com".data = false := by
  decide

/-- Claim C4 (amended): every input string starting with `http://`,
`https://`, `file://` or `ftp://` and containing no space character is
classified as a URL by the address-bar classifier `is_url`. -/
theorem is_url_scheme_no_space_url (text : List Char) (h1 : hasScheme text = true)
    (h2 : text.contains ' ' = false) : is_url text = true := by
  unfold is_url
  rw [if_neg (by rw [h2]; exact Bool.false_ne_true)]
  split <;> simp_all

/-- Witness for amended claim C4 at the concrete input `"ftp://files"`. -/
theorem is_url_scheme_no_space_url_witness :
    hasScheme "ftp://files".data = true ∧ ("ftp://files".data).contains ' ' = false ∧
      is_url "ftp://files".data = true :=
  ⟨by decide, by decide, is_url_scheme_no_space_url "ftp://files".data (by decide) (by decide)⟩

/-- Row of the `favorites` table created by `init_database`
(src/browser.py lines 842-850): url (declared UNIQUE), title, favicon
(nullable), timestamp (`DEFAULT CURRENT_TIMESTAMP`, embedded as `now`).
The auto-increment `id` is omitted. -/
structure FavoriteEntry where
  url : List Char
  title : List Char
  favicon : Option (List Char)
  timestamp : Nat
deriving DecidableEq

/-- Embedding of `ViceCityBrowser.add_favorite` (src/browser.py lines
1230-1239): `INSERT INTO favorites (url, title, favicon)` returns `True` on
success and `False` when the `UNIQUE` constraint on `url` raises
`sqlite3.IntegrityError`, i.e. exactly when a row with that url already
exists; a failed insert leaves the table unchanged. -/
def add_favorite (url title : List Char) (favicon : Option (List Char)) (now : Nat)
    (favs : List FavoriteEntry) : Bool × List FavoriteEntry :=
  if favs.any (fun f => f.url == url) then (false, favs)
  else (true, favs ++ [⟨url, title, favicon, now⟩])

/-- Embedding of `ViceCityBrowser.remove_favorite` (src/browser.py lines
1241-1243): `DELETE FROM favorites WHERE url = ?`. -/
def remove_favorite (url : List Char) (favs : List FavoriteEntry) : List FavoriteEntry :=
  favs.filter (fun f => !(f.url == url))

/-- Embedding of `ViceCityBrowser.is_favorite` (src/browser.py lines
1245-1247): `SELECT COUNT(*) FROM favorites WHERE url = ?` compared with 0. -/
def is_favorite (url : List Char) (favs : List FavoriteEntry) : Bool :=
  decide (0 < favs.countP (fun f => f.url == url))

/-- Embedding of `ViceCityBrowser.get_favorites` (src/browser.py lines
1226-1228): `SELECT ... FROM favorites ORDER BY timestamp DESC`, embedded as
a stable sort by descending timestamp. -/
def get_favorites (favs : List FavoriteEntry) : List FavoriteEntry :=
  List.insertionSort (fun a b => b.timestamp ≤ a.timestamp) favs

/-- Claim C5: for a url not currently in the favorites store, calling
`add_favorite` twice in a row (same url, title, favicon) returns success the
first time and failure the second time, and afterwards `get_favorites`
contains exactly one entry with that url. -/
theorem add_favorite_twice_unique (url title : List Char) (favicon : Option (List Char))
    (n1 n2 : Nat) (favs : List FavoriteEntry) (h : ∀ f ∈ favs, f.url ≠ url) :
    (add_favorite url title favicon n1 favs).1 = true ∧
      (add_favorite url title favicon n2 (add_favorite url title favicon n1 favs).2).1 = false ∧
      (get_favorites
            (add_favorite url title favicon n2 (add_favorite url title favicon n1 favs).2).2).countP
          (fun f => f.url == url) = 1 := by
  have hany : favs.any (fun f => f.url == url) = false := by
    rw [List.any_eq_false]
    intro f hf
    simpa using h f hf
  have h1 : add_favorite url title favicon n1 favs =
      (true, favs ++ [⟨url, title, favicon, n1⟩]) := by
    unfold add_favorite
    rw [if_neg (by rw [hany]; exact Bool.false_ne_true)]
  have h2 : (favs ++ [FavoriteEntry.mk url title favicon n1]).any
      (fun f => f.url == url) = true := by
    simp [List.any_append]
  have hz : favs.countP (fun f => f.url == url) = 0 := by
    rw [List.countP_eq_zero]
    intro f hf
    simpa using h f hf
  refine ⟨by rw [h1], ?_, ?_⟩
  · rw [h1]
    unfold add_favorite
    rw [if_pos h2]
  · rw [h1]
    unfold add_favorite
    rw [if_pos h2]
    show List.countP (fun f => f.url == url)
        (get_favorites (favs ++ [FavoriteEntry.mk url title favicon n1])) = 1
    unfold get_favorites
    rw [(List.perm_insertionSort _ _).countP_eq]
    rw [List.countP_append, hz]
    simp

/-- Witness for claim C5 on the empty favorites store with the url
`"https://example.org"`. -/
theorem add_favorite_twice_unique_witness :
    (add_favorite "https://example.org".data "Example".data none 0 []).1 = true ∧
      (add_favorite "https://example.org".data "Example".data none 1
          (add_favorite "https://example.org".data "Example".data none 0 []).2).1 = false ∧
      (get_favorites
            (add_favorite "https://example.org".data "Example".data none 1
                (add_favorite "https://example.org".data "Example".data none 0 []).2).2).countP
          (fun f => f.url == "https://example.org".data) = 1 :=
  add_favorite_twice_unique "https://example.org".data "Example".data none 0 1 []
    (by simp)

/-- User-visible outcome of `ViceCityBrowser.toggle_favorite`: which message
box is shown (warning "Cannot favorite this page!", information "Removed from
favorites!" / "Added to favorites!", or warning "Already in favorites!"). -/
inductive FavoriteAction where
  | warned_cannot
  | removed
  | added
  | warned_already
deriving DecidableEq

/-- Embedding of `ViceCityBrowser.toggle_favorite` (src/browser.py lines
1294-1319): the guard `not url or url in ['about:blank', ''] or
url.startswith("data:text/html")` rejects with a warning and leaves the
store unchanged; otherwise the url is removed when present, else inserted
via `add_favorite` (reporting "already" when that insert fails). -/
def toggle_favorite (url title : List Char) (favicon : Option (List Char)) (now : Nat)
    (favs : List FavoriteEntry) : FavoriteAction × List FavoriteEntry :=
  if url = [] ∨ url = "about:blank".data ∨ url = "".data ∨
      startsWith "data:text/html".data url = true then
    (FavoriteAction.warned_cannot, favs)
  else if is_favorite url favs then
    (FavoriteAction.removed, remove_favorite url favs)
  else if (add_favorite url title favicon now favs).1 then
    (FavoriteAction.added, (add_favorite url title favicon now favs).2)
  else
    (FavoriteAction.warned_already, (add_favorite url title favicon now favs).2)

/-- Embedding of `ViceCityBrowser.update_urlbar` (src/browser.py lines
1164-1173): the new content of the URL bar — cleared when the url string
starts with `data:text/html`, otherwise the url string itself. -/
def update_urlbar (url_string : List Char) : List Char :=
  if startsWith "data:text/html".data url_string then [] else url_string

/-- Claim C10: every url starting with `data:text/html` — not only the
currently generated home page — is treated as the internal home page:
`toggle_favorite` rejects it with the "cannot favorite" warning and leaves
the favorites store unchanged, and `update_urlbar` clears the URL bar. -/
theorem data_url_treated_as_home (url title : List Char) (favicon : Option (List Char))
    (now : Nat) (favs : List FavoriteEntry)
    (h : startsWith "data:text/html".data url = true) :
    toggle_favorite url title favicon now favs = (FavoriteAction.warned_cannot, favs) ∧
      update_urlbar url = [] := by
  constructor
  · unfold toggle_favorite
    rw [if_pos (Or.inr (Or.inr (Or.inr h)))]
  · unfold update_urlbar
    rw [if_pos h]

/-- Witness for claim C10 at a concrete `data:text/html` url that is not the
generated home page, on a non-empty favorites store. -/
theorem data_url_treated_as_home_witness :
    toggle_favorite "data:text/html,other".data "Other".data none 5
        [FavoriteEntry.mk "https://a.org".data "A".data none 0] =
      (FavoriteAction.warned_cannot, [FavoriteEntry.mk "https://a.org".data "A".data none 0]) ∧
      update_urlbar "data:text/html,other".data = [] :=
  data_url_treated_as_home "data:text/html,other".data "Other".data none 5
    [FavoriteEntry.mk "https://a.org".data "A".data none 0] (by decide)

/-- Row of the `history` table created by `init_database` (src/browser.py
lines 834-841): url, title, timestamp (`DEFAULT CURRENT_TIMESTAMP`, embedded
as `now`).  The auto-increment `id` is omitted. -/
structure HistoryEntry where
  url : List Char
  title : List Char
  timestamp : Nat
deriving DecidableEq

/-- Embedding of `ViceCityBrowser.save_to_history` (src/browser.py lines
1215-1224), the handler connected to every `loadFinished` event: the guard
is `if url and url not in ['about:blank', '']`, and when it passes a new row
`(url, title)` is inserted into `history`.  Note the guard does NOT exclude
`data:text/html` urls. -/
def save_to_history (url title : List Char) (now : Nat) (history : List HistoryEntry) :
    List HistoryEntry :=
  if url ≠ [] ∧ url ≠ "about:blank".data ∧ url ≠ "".data then
    history ++ [⟨url, title, now⟩]
  else history

/-- The fixed head of the internal home-page URL produced by
`create_vice_city_homepage` (src/browser.py line 815):
`"data:text/html;charset=utf-8," + urllib.parse.quote(html)`. -/
def home_url_head : List Char := "data:text/html;charset=utf-8,".data

/-- Claim C1 (code_bug evidence): `save_to_history` is a no-op on the empty
url and on `"about:blank"`, but it DOES append a history row for an internal
home-page URL (one starting with `data:text/html;charset=utf-8,`) — the
code's guard never checks for the home page, contradicting the claim that
the home page is never written to history. -/
theorem save_to_history_writes_home_page :
    startsWith home_url_head "data:text/html;charset=utf-8,homepage".data = true ∧
      save_to_history "data:text/html;charset=utf-8,homepage".data "vicebrowser".data 0 [] =
        [HistoryEntry.mk "data:text/html;charset=utf-8,homepage".data "vicebrowser".data 0] ∧
      save_to_history "about:blank".data "blank".data 0 [] = [] ∧
      save_to_history [] "empty".data 0 [] = [] := by
  decide

/-- One tab of the tab strip: the web view's current url and zoom factor.
The zoom factor is embedded as a rational; claim C6 involves no float
arithmetic, only the assignment of the literal `0.9`. -/
structure TabSession where
  url : List Char
  zoom : ℚ
deriving DecidableEq

/-- Embedding of `ViceCityBrowser.close_tab` (src/browser.py lines
1063-1069) acting on the ordered tab list: when fewer than two tabs are open
the current tab (index `cur`) gets `setUrl(home_url)` and
`setZoomFactor(0.9)`; otherwise `removeTab(i)` removes the addressed tab. -/
def close_tab (home_url : List Char) (cur i : Nat) (tabs : List TabSession) :
    List TabSession :=
  if tabs.length < 2 then
    tabs.set cur ⟨home_url, 9 / 10⟩
  else
    tabs.eraseIdx i

/-- Claim C6: `close_tab` never brings the tab count below 1: invoked with
only one open tab, that tab is kept with its url set to the home page and
its zoom factor set to 0.9; with two or more tabs the addressed tab is
removed (the list loses exactly the element at the addressed index). -/
theorem close_tab_keeps_at_least_one_tab (home_url : List Char) (cur i : Nat)
    (tabs : List TabSession) (hne : 1 ≤ tabs.length) (hcur : cur < tabs.length)
    (hi : i < tabs.length) :
    1 ≤ (close_tab home_url cur i tabs).length ∧
      (tabs.length = 1 → close_tab home_url cur i tabs = [⟨home_url, 9 / 10⟩]) ∧
      (2 ≤ tabs.length →
        (close_tab home_url cur i tabs).length = tabs.length - 1 ∧
          close_tab home_url cur i tabs = tabs.take i ++ tabs.drop (i + 1)) := by
  unfold close_tab
  by_cases hlt : tabs.length < 2
  · rw [if_pos hlt]
    refine ⟨by rw [List.length_set]; exact hne, ?_, ?_⟩
    · intro h1
      obtain ⟨t, rfl⟩ := List.length_eq_one.mp h1
      have hc0 : cur = 0 := by
        simp only [List.length_singleton] at hcur
        omega
      rw [hc0]
      rfl
    · intro h2
      omega
  · rw [if_neg hlt]
    refine ⟨?_, ?_, ?_⟩
    · rw [List.length_eraseIdx, if_pos hi]
      omega
    · intro h1
      omega
    · intro _
      exact ⟨by rw [List.length_eraseIdx, if_pos hi], List.eraseIdx_eq_take_drop_succ tabs i⟩

/-- Witness for claim C6 on a single-tab strip showing a real site. -/
theorem close_tab_keeps_at_least_one_tab_witness :
    1 ≤ (close_tab "data:text/html,home".data 0 0
          [TabSession.mk "https://a.org".data 1]).length ∧
      ([TabSession.mk "https://a.org".data 1].length = 1 →
        close_tab "data:text/html,home".data 0 0 [TabSession.mk "https://a.org".data 1] =
          [⟨"data:text/html,home".data, 9 / 10⟩]) ∧
      (2 ≤ [TabSession.mk "https://a.org".data 1].length →
        (close_tab "data:text/html,home".data 0 0
              [TabSession.mk "https://a.org".data 1]).length =
            [TabSession.mk "https://a.org".data 1].length - 1 ∧
          close_tab "data:text/html,home".data 0 0 [TabSession.mk "https://a.org".data 1] =
            [TabSession.mk "https://a.org".data 1].take 0 ++
              [TabSession.mk "https://a.org".data 1].drop 1) :=
  close_tab_keeps_at_least_one_tab "data:text/html,home".data 0 0
    [TabSession.mk "https://a.org".data 1] (by decide) (by decide) (by decide)

/-- The active resize edge, as produced by `get_resize_direction`
(src/browser.py lines 2334-2359). -/
inductive ResizeDir where
  | left
  | right
  | top
  | bottom
  | top_left
  | top_right
  | bottom_left
  | bottom_right
deriving DecidableEq

/-- Python substring test `'left' in direction` over the eight direction
strings. -/
def hasLeft : ResizeDir → Bool
  | .left | .top_left | .bottom_left => true
  | _ => false

/-- Python substring test `'right' in direction` over the eight direction
strings. -/
def hasRight : ResizeDir → Bool
  | .right | .top_right | .bottom_right => true
  | _ => false

/-- Python substring test `'top' in direction` over the eight direction
strings. -/
def hasTop : ResizeDir → Bool
  | .top | .top_left | .top_right => true
  | _ => false

/-- Python substring test `'bottom' in direction` over the eight direction
strings. -/
def hasBottom : ResizeDir → Bool
  | .bottom | .bottom_left | .bottom_right => true
  | _ => false

/-- Window geometry `(x, y, width, height)` as in `QRect`. -/
structure Geometry where
  x : Int
  y : Int
  w : Int
  h : Int
deriving DecidableEq

/-- Embedding of the manual-resize branch of
`ViceCityBrowser.mouseMoveEvent` (src/browser.py lines 2410-2437); the
`FramelessDialog.mouseMoveEvent` branch (lines 292-323) is textually
identical.  `geo` is the anchor geometry recorded at press time
(`resize_start_geometry`), `(dx, dy)` is the pointer delta from the anchor
position, and `minW`/`minH` are the window's minimum width and height.
Left edge: only if `width - dx >= minW` are origin and width updated.
Right edge: `width = max(minW, width + dx)`.  Top/bottom are symmetric. -/
def mouseMoveEvent_resizing (minW minH : Int) (dir : ResizeDir) (geo : Geometry)
    (dx dy : Int) : Geometry :=
  let xw : Int × Int :=
    if hasLeft dir then
      if minW ≤ geo.w - dx then (geo.x + dx, geo.w - dx) else (geo.x, geo.w)
    else (geo.x, geo.w)
  let w2 : Int := if hasRight dir then max minW (xw.2 + dx) else xw.2
  let yh : Int × Int :=
    if hasTop dir then
      if minH ≤ geo.h - dy then (geo.y + dy, geo.h - dy) else (geo.y, geo.h)
    else (geo.y, geo.h)
  let h2 : Int := if hasBottom dir then max minH (yh.2 + dy) else yh.2
  ⟨xw.1, yh.1, w2, h2⟩

/-- Claim C7 (counterexample): dragging the left edge of an 800x600 window
(minimum width 400) rightwards by 500 would give width 300 < 400, but the
code does NOT clamp the width to the minimum 400 — it ignores the drag on
that axis and keeps the anchor width 800. -/
theorem resize_left_below_min_not_clamped :
    mouseMoveEvent_resizing 400 300 ResizeDir.left ⟨100, 100, 800, 600⟩ 500 0 =
        ⟨100, 100, 800, 600⟩ ∧
      (mouseMoveEvent_resizing 400 300 ResizeDir.left ⟨100, 100, 800, 600⟩ 500 0).w ≠ 400 ∧
      (800 : Int) - 500 < 400 := by
  decide

/-- Claim C7 (amended): on a below-minimum drag the behavior depends on the
edge.  Right/bottom edges: the new width/height is clamped to the minimum
and the origin on that axis is unchanged.  Left/top edges: the drag is
ignored on that axis — width/height AND origin keep their anchor values
(no clamping to the minimum). -/
theorem resize_min_clamp_behavior (minW minH dx dy : Int) (geo : Geometry)
    (dir : ResizeDir) :
    (hasRight dir = true → geo.w + dx < minW →
        (mouseMoveEvent_resizing minW minH dir geo dx dy).w = minW ∧
          (mouseMoveEvent_resizing minW minH dir geo dx dy).x = geo.x) ∧
      (hasLeft dir = true → geo.w - dx < minW →
        (mouseMoveEvent_resizing minW minH dir geo dx dy).w = geo.w ∧
          (mouseMoveEvent_resizing minW minH dir geo dx dy).x = geo.x) ∧
      (hasBottom dir = true → geo.h + dy < minH →
        (mouseMoveEvent_resizing minW minH dir geo dx dy).h = minH ∧
          (mouseMoveEvent_resizing minW minH dir geo dx dy).y = geo.y) ∧
      (hasTop dir = true → geo.h - dy < minH →
        (mouseMoveEvent_resizing minW minH dir geo dx dy).h = geo.h ∧
          (mouseMoveEvent_resizing minW minH dir geo dx dy).y = geo.y) := by
  cases dir <;>
    refine ⟨?_, ?_, ?_, ?_⟩ <;>
    intro hdir hbelow <;>
    simp_all [mouseMoveEvent_resizing, hasLeft, hasRight, hasTop, hasBottom] <;>
    (try split_ifs) <;>
    (try constructor) <;>
    (try simp) <;>
    omega

/-- Witness for amended claim C7: a right-edge drag of an 800x600 window
(minimum 400x300) by -450 gives width clamped to 400 with origin unchanged,
and a top-edge drag by +350 (height 600 - 350 = 250 < 300) keeps height 600
and origin unchanged. -/
theorem resize_min_clamp_behavior_witness :
    ((mouseMoveEvent_resizing 400 300 ResizeDir.right ⟨100, 100, 800, 600⟩ (-450) 0).w = 400 ∧
        (mouseMoveEvent_resizing 400 300 ResizeDir.right ⟨100, 100, 800, 600⟩ (-450) 0).x =
          (Geometry.mk 100 100 800 600).x) ∧
      ((mouseMoveEvent_resizing 400 300 ResizeDir.top ⟨100, 100, 800, 600⟩ 0 350).h = 600 ∧
        (mouseMoveEvent_resizing 400 300 ResizeDir.top ⟨100, 100, 800, 600⟩ 0 350).y =
          (Geometry.mk 100 100 800 600).y) :=
  ⟨(resize_min_clamp_behavior 400 300 (-450) 0 ⟨100, 100, 800, 600⟩ ResizeDir.right).1
      rfl (by decide),
    (resize_min_clamp_behavior 400 300 0 350 ⟨100, 100, 800, 600⟩ ResizeDir.top).2.2.2
      rfl (by decide)⟩

/-- Claim C8: for a window of size 800x600 at origin (100,100) whose minimum
size does not interfere (minimum width at most 780, minimum height at most
590), a bottom_right drag by (+50,+30) yields size 850x630 at unchanged
origin, and a top_left drag by (+20,+10) yields size 780x590 at origin
(120,110). -/
theorem resize_concrete_drags (minW minH : Int) (hW : minW ≤ 780) (hH : minH ≤ 590) :
    mouseMoveEvent_resizing minW minH ResizeDir.bottom_right ⟨100, 100, 800, 600⟩ 50 30 =
        ⟨100, 100, 850, 630⟩ ∧
      mouseMoveEvent_resizing minW minH ResizeDir.top_left ⟨100, 100, 800, 600⟩ 20 10 =
        ⟨120, 110, 780, 590⟩ := by
  constructor
  · simp [mouseMoveEvent_resizing, hasLeft, hasRight, hasTop, hasBottom, Geometry.mk.injEq]
    omega
  · simp [mouseMoveEvent_resizing, hasLeft, hasRight, hasTop, hasBottom, Geometry.mk.injEq]
    rw [if_pos (by omega : minW ≤ (780 : Int)), if_pos (by omega : minH ≤ (590 : Int))]
    simp

/-- Witness for claim C8 with minimum size 100x100. -/
theorem resize_concrete_drags_witness :
    mouseMoveEvent_resizing 100 100 ResizeDir.bottom_right ⟨100, 100, 800, 600⟩ 50 30 =
        ⟨100, 100, 850, 630⟩ ∧
      mouseMoveEvent_resizing 100 100 ResizeDir.top_left ⟨100, 100, 800, 600⟩ 20 10 =
        ⟨120, 110, 780, 590⟩ :=
  resize_concrete_drags 100 100 (by decide) (by decide)

/-- Fuel-based floor of the base-2 logarithm: `floorLog2 fuel n` is the
largest `e` with `2 ^ e ≤ n` (for `n ≥ 1` and enough fuel). -/
def floorLog2 : Nat → Nat → Nat
  | 0, _ => 0
  | fuel + 1, n => if n ≤ 1 then 0 else floorLog2 fuel (n / 2) + 1

/-- Round-half-to-even selection: given quotient `q` and remainder `r` of a
division by `u`, pick `q` or `q + 1` as IEEE-754 round-to-nearest,
ties-to-even does. -/
def rndHalfEven (q r u : Nat) : Nat :=
  if 2 * r < u then q
  else if u < 2 * r then q + 1
  else if q % 2 = 0 then q else q + 1

/-- IEEE-754 binary64 rounding on the fixed-point grid `2 ^ (-60)`: `s`
encodes the real value `s / 2 ^ 60`, and the result is the encoding of the
nearest double (ties to even).  For values with floor exponent at least
`-8` (all values arising in the zoom computation) the unit in the last
place is `2 ^ (floorLog2 s - 52)` grid units; below that the grid itself is
coarser than a double and `s` is returned unchanged. -/
def roundDouble (s : Nat) : Nat :=
  let e := floorLog2 128 s
  if e ≤ 52 then s
  else
    let u := 2 ^ (e - 52)
    rndHalfEven (s / u) (s % u) u * u

/-- The IEEE-754 binary64 value of the rational `num / den`, on the grid
`2 ^ (-60)` (round to nearest, ties to even).  Used to embed the Python
float literal `0.1`. -/
def doubleOfRat (num den : Nat) : Nat :=
  let s := num * 2 ^ 60
  let e := floorLog2 128 (s / den)
  if e ≤ 52 then s / den
  else
    let u := 2 ^ (e - 52)
    rndHalfEven (s / (den * u)) (s % (den * u)) (den * u) * u

/-- The Python float literal `0.1` of `zoom_in` (src/browser.py line 1111):
the double nearest to 1/10, on the grid `2 ^ (-60)`. -/
def fp_tenth : Nat := doubleOfRat 1 10

/-- The double `1.0` on the grid `2 ^ (-60)` (exact). -/
def fp_one : Nat := 2 ^ 60

/-- The double `2.0` on the grid `2 ^ (-60)` (exact). -/
def fp_two : Nat := 2 ^ 61

/-- The double `3.0` on the grid `2 ^ (-60)` (exact). -/
def fp_three : Nat := 3 * 2 ^ 60

/-- Embedding of `ViceCityBrowser.zoom_in` (src/browser.py lines 1107-1113)
acting on the current zoom factor:
`new_zoom = min(current_zoom + 0.1, 3.0)`.  The float addition is the
rounded exact sum; Python's `min` on doubles is the exact comparison. -/
def zoom_in (z : Nat) : Nat := min (roundDouble (z + fp_tenth)) fp_three

/-- `iterZoomIn n z` is the zoom factor after `n` consecutive `zoom_in`
calls starting from `z`. -/
def iterZoomIn : Nat → Nat → Nat
  | 0, z => z
  | n + 1, z => iterZoomIn n (zoom_in z)

set_option maxRecDepth 40000

/-- The embedded literal `0.1` equals the known binary64 encoding
`7205759403792794 * 2 ^ (-56)` (in grid units `* 2 ^ 4`). -/
example : fp_tenth = 7205759403792794 * 2 ^ 4 := by decide

/-- One zoom-in step from 1.0 gives the double `1.1` (binary64
`4953959590107546 * 2 ^ (-52)`), an exact reproduction of CPython's
`1.0 + 0.1`. -/
example : iterZoomIn 1 fp_one = 4953959590107546 * 2 ^ 8 := by decide

/-- Nineteen steps give `2.9000000000000017`, twenty steps saturate at
exactly `3.0` — matching the CPython float sequence step by step. -/
example : iterZoomIn 19 fp_one = 3343472363359858176 ∧ iterZoomIn 20 fp_one = fp_three := by
  decide

/-- Claim C9 (counterexample): starting from zoom 1.0, ten consecutive
`zoom_in` calls do NOT yield exactly 2.0: the accumulated value is the
double `2.000000000000001` (grid value `2305843009213694976`, i.e.
`2 + 2 ^ (-50)`), because each step adds the double `0.1`, which is not
exactly 1/10. -/
theorem ten_zoom_ins_not_exactly_two : iterZoomIn 10 fp_one ≠ fp_two := by
  decide

/-- Claim C9 (amended): starting from 1.0, ten consecutive `zoom_in` calls
yield the double `2.000000000000001` (exactly `(2 ^ 51 + 1) * 2 ^ (-50)`),
not exactly 2.0; twenty-eight consecutive calls saturate at exactly 3.0
(the clamp `min(_, 3.0)` is reached at the twentieth call and is exact from
then on). -/
theorem zoom_in_iteration_exact :
    iterZoomIn 10 fp_one = (2 ^ 51 + 1) * 2 ^ 10 ∧ iterZoomIn 28 fp_one = fp_three := by
  decide
